import Mathlib

/-
Verification of the QuestLog task-lifecycle core and persistence gateway.

Client side: the Task Lifecycle Manager (TaskManager) implementation file is
not among the provided sources; only its Jest test suite
(src/client/src/services/task/__tests__/TaskManager.test.js) is. Its
operations are therefore modelled from the specification (sections 3 and 4.2)
and cross-checked against the behaviours the test suite pins down.

Server side: the Persistence Gateway handlers are embedded directly from
src/server/server.js (authenticateToken, POST /api/users, PUT /api/users/:id,
GET /api/leaderboard, PUT /api/users/:id/opt-in, GET /api/users/:id).
JavaScript value coercions (Number, parseInt, truthiness, x || d) are modelled
on an explicit JavaScript value type.
-/

namespace QuestLog

/-! ## Task lifecycle manager: data model -/

/-- A task-creation payload as accepted by addTask.
Modelled from the spec: TaskManager.js is missing from the sources; fields
follow section 3 of the specification (title, experience, optional deadline,
optional label). -/
structure TaskInput where
  title : String
  experience : Int
  deadline : Option String := none
  label : Option String := none
deriving Repr, DecidableEq

/-- A pending task.
Modelled from the spec: section 3 data model (id, title, experience,
optional deadline, optional label with none playing JavaScript null,
createdAt timestamp). -/
structure Task where
  id : String
  title : String
  experience : Int
  deadline : Option String
  label : Option String
  createdAt : String
deriving Repr, DecidableEq

/-- A completed task: all Task fields plus completedAt, earlyBonus and
overduePenalty. Modelled from the spec: section 3 CompletedTask. -/
structure CompletedTask where
  id : String
  title : String
  experience : Int
  deadline : Option String
  label : Option String
  createdAt : String
  completedAt : String
  earlyBonus : Int
  overduePenalty : Int
deriving Repr, DecidableEq

/-- Behaviour of an injected collection-updater collaborator: it either
applies the functional update it is given, or throws an Error with the given
message (as the test suite does with mockImplementation). -/
inductive UpdaterBehavior where
  | succeeds
  | throws (msg : String)
deriving Repr, DecidableEq

/-- Observable trace of one manager operation: the two collections after the
operation, every message routed to the error reporter, every XP Calculator
invocation (raw-delta calls and (experience, deadline) calls separately), the
number of celebratory-effect triggers, and the number of invocations of each
collection updater. -/
structure OpTrace where
  tasks : List Task
  completedTasks : List CompletedTask
  reportedErrors : List String
  xpDeltaCalls : List Int
  xpBonusCalls : List (Int × Option String)
  confettiCount : Nat
  setTasksCalls : Nat
  setCompletedTasksCalls : Nat
deriving Repr, DecidableEq

/-- The trace of a manager that has done nothing yet. -/
def OpTrace.empty : OpTrace :=
  { tasks := [], completedTasks := [], reportedErrors := [], xpDeltaCalls := [],
    xpBonusCalls := [], confettiCount := 0, setTasksCalls := 0,
    setCompletedTasksCalls := 0 }

/-- The try/catch wrapper shared by all four operations.
Modelled from the spec: catch any exception raised by a downstream
collaborator, route its message to the error reporter, and never propagate
the exception to the caller (the result type OpTrace is total: no exception
escapes). -/
def catchReport (r : Except (String × OpTrace) OpTrace) : OpTrace :=
  match r with
  | .ok t => t
  | .error (m, t) => { t with reportedErrors := t.reportedErrors ++ [m] }

/-- One invocation of the pending-collection updater with a functional
update: counts the call, then either applies the pure transformation to the
latest pending collection or throws. -/
def setTasksCall (bt : UpdaterBehavior) (f : List Task → List Task)
    (t : OpTrace) : Except (String × OpTrace) OpTrace :=
  let t1 := { t with setTasksCalls := t.setTasksCalls + 1 }
  match bt with
  | .succeeds => .ok { t1 with tasks := f t1.tasks }
  | .throws m => .error (m, t1)

/-- One invocation of the completed-collection updater with a functional
update. -/
def setCompletedTasksCall (bc : UpdaterBehavior)
    (f : List CompletedTask → List CompletedTask)
    (t : OpTrace) : Except (String × OpTrace) OpTrace :=
  let t1 := { t with setCompletedTasksCalls := t.setCompletedTasksCalls + 1 }
  match bc with
  | .succeeds => .ok { t1 with completedTasks := f t1.completedTasks }
  | .throws m => .error (m, t1)

/-! ## Task lifecycle manager: operations -/

/-- Building one pending task from a payload, a freshly generated id and the
current timestamp. Modelled from the spec: generates a fresh unique id,
stamps createdAt with the current time, defaults label to absent. -/
def buildTask (now : String) (p : String × TaskInput) : Task :=
  { id := p.1, title := p.2.title, experience := p.2.experience,
    deadline := p.2.deadline, label := p.2.label, createdAt := now }

/-- The single pure transformation addTask passes to the pending-collection
updater: append the newly built tasks, preserving input order. -/
def addTaskTransform (ids : List String) (now : String)
    (inputs : List TaskInput) : List Task → List Task :=
  fun prev => prev ++ (ids.zip inputs).map (buildTask now)

/-- addTask. Modelled from the spec: for each payload generate a fresh id
(supplied here by the id generator as the list ids) and stamp createdAt with
the current time now; invoke the pending-collection updater exactly once per
call with a pure transformation of the prior collection; on failure report
the message and swallow the exception. -/
def addTask (bt : UpdaterBehavior) (ids : List String) (now : String)
    (inputs : List TaskInput) (t0 : OpTrace) : OpTrace :=
  catchReport (setTasksCall bt (addTaskTransform ids now inputs) t0)

/-- The completed entry produced by completeTask: the original task fields
plus completedAt and the XP Calculator outputs. -/
def buildCompleted (task : Task) (now : String) (eb pen : Int) : CompletedTask :=
  { id := task.id, title := task.title, experience := task.experience,
    deadline := task.deadline, label := task.label,
    createdAt := task.createdAt, completedAt := now, earlyBonus := eb,
    overduePenalty := pen }

/-- completeTask. Modelled from the spec: compute earlyBonus and
overduePenalty via the XP Calculator from task.experience and task.deadline,
trigger the celebratory effect exactly once, remove the task from the pending
collection and append the completed entry to the completed collection;
failures are caught and reported. -/
def completeTask (calcXP : Int → Option String → Int × Int)
    (bt bc : UpdaterBehavior) (now : String) (task : Task)
    (t0 : OpTrace) : OpTrace :=
  let eb := (calcXP task.experience task.deadline).1
  let pen := (calcXP task.experience task.deadline).2
  let t1 := { t0 with
    xpBonusCalls := t0.xpBonusCalls ++ [(task.experience, task.deadline)],
    confettiCount := t0.confettiCount + 1 }
  catchReport (
    match setTasksCall bt (fun prev => prev.filter (fun x => x.id != task.id)) t1 with
    | .error e => .error e
    | .ok t2 =>
        setCompletedTasksCall bc
          (fun prev => prev ++ [buildCompleted task now eb pen]) t2)

/-- removeTask. Modelled from the spec: with wasCompleted false, filter the
task with matching id out of the pending collection; with wasCompleted true,
look the task up in the completed collection, if found pass the raw delta
-(experience + earlyBonus + overduePenalty) to the XP Calculator, and filter
the task out of the completed collection; a missing id is a no-op on that
collection; failures are caught and reported. -/
def removeTask (bt bc : UpdaterBehavior) (id : String) (wasCompleted : Bool)
    (t0 : OpTrace) : OpTrace :=
  if wasCompleted then
    match bc with
    | .throws m =>
        { t0 with setCompletedTasksCalls := t0.setCompletedTasksCalls + 1,
                  reportedErrors := t0.reportedErrors ++ [m] }
    | .succeeds =>
        let t1 := { t0 with
          setCompletedTasksCalls := t0.setCompletedTasksCalls + 1 }
        let t2 := match t1.completedTasks.find? (fun x => x.id == id) with
          | some c => { t1 with xpDeltaCalls := t1.xpDeltaCalls ++
              [-(c.experience + c.earlyBonus + c.overduePenalty)] }
          | none => t1
        { t2 with completedTasks := t2.completedTasks.filter (fun x => x.id != id) }
  else
    catchReport (setTasksCall bt (fun prev => prev.filter (fun x => x.id != id)) t0)

/-- An updateTask patch: a field is some v when the patch names it and none
when it leaves it unspecified. Modelled from the spec: field-by-field merge
payload for updateTask; the patch may even name id, which the merge ignores. -/
structure TaskPatch where
  id : Option String := none
  title : Option String := none
  experience : Option Int := none
  deadline : Option (Option String) := none
  label : Option (Option String) := none
  createdAt : Option String := none
deriving Repr, DecidableEq

/-- The field-by-field merge performed by updateTask. Modelled from the
spec: merge the given fields into the existing task, leaving unspecified
fields untouched and leaving id unchanged regardless of what is passed. -/
def mergeTask (t : Task) (p : TaskPatch) : Task :=
  { id := t.id,
    title := p.title.getD t.title,
    experience := p.experience.getD t.experience,
    deadline := p.deadline.getD t.deadline,
    label := p.label.getD t.label,
    createdAt := p.createdAt.getD t.createdAt }

/-- updateTask. Modelled from the spec: merge the patch into the pending
task with matching id; if no task matches, a no-op that creates nothing;
failures are caught and reported. -/
def updateTask (bt : UpdaterBehavior) (id : String) (p : TaskPatch)
    (t0 : OpTrace) : OpTrace :=
  catchReport (setTasksCall bt
    (fun prev => prev.map (fun t => if t.id == id then mergeTask t p else t)) t0)

/-- Validity of a timestamp string.
Modelled from the spec: createdAt and completedAt are stamped with the
current time as an ISO-8601 string (the shape produced by
Date.toISOString, YYYY-MM-DDTHH:MM:SS.mmmZ). -/
def isValidISO (s : String) : Bool :=
  match s.data with
  | [y1, y2, y3, y4, '-', m1, m2, '-', d1, d2, 'T', h1, h2, ':', n1, n2, ':',
     s1, s2, '.', f1, f2, f3, 'Z'] =>
      [y1, y2, y3, y4, m1, m2, d1, d2, h1, h2, n1, n2, s1, s2, f1, f2, f3].all
        Char.isDigit
  | _ => false

/-! ## Persistence gateway: JavaScript value and coercion model -/

/-- A JavaScript number: either NaN or an integer (the payloads the gateway
handles are integral). -/
inductive JSNum where
  | nan
  | int (n : Int)
deriving Repr, DecidableEq

/-- A JavaScript value as it can appear in a request body: undefined, null,
a boolean, a number, a string, or an array (of opaque elements kept as
strings). -/
inductive JSValue where
  | undefined
  | null
  | bool (b : Bool)
  | num (n : JSNum)
  | str (s : String)
  | arr (elems : List String)
deriving Repr, DecidableEq

/-- Numeric value of a digit string. -/
def digitsToNat (cs : List Char) : Nat :=
  cs.foldl (fun acc c => acc * 10 + (c.toNat - '0'.toNat)) 0

/-- Number() applied to a string: the empty string is 0, an optional sign
followed by digits is that integer, anything else is NaN (integral subset of
the JavaScript numeric-string grammar). -/
def strToNumber (s : String) : JSNum :=
  match s.data with
  | [] => .int 0
  | '-' :: rest =>
      if rest ≠ [] && rest.all Char.isDigit then .int (-(digitsToNat rest : Int))
      else .nan
  | '+' :: rest =>
      if rest ≠ [] && rest.all Char.isDigit then .int (digitsToNat rest)
      else .nan
  | cs => if cs.all Char.isDigit then .int (digitsToNat cs) else .nan

/-- The Number() coercion used by server.js: Number(undefined) is NaN,
Number(null) is 0, booleans map to 0 and 1, strings parse or give NaN, and
an array coerces through its joined string form (empty array to 0, singleton
through its element, longer arrays to NaN). -/
def toNumber : JSValue → JSNum
  | .undefined => .nan
  | .null => .int 0
  | .bool b => .int (if b then 1 else 0)
  | .num n => n
  | .str s => strToNumber s
  | .arr [] => .int 0
  | .arr [s] => strToNumber s
  | .arr (_ :: _ :: _) => .nan

/-- JavaScript truthiness of a number: NaN and 0 are falsy. -/
def numTruthy : JSNum → Bool
  | .nan => false
  | .int n => n != 0

/-- The expression Number(x) || d of server.js: the coerced number if it is
truthy, else the default d. -/
def numOr (n : JSNum) (d : Int) : JSNum :=
  if numTruthy n then n else .int d

/-- The isNaN test of server.js. -/
def jsIsNaN : JSNum → Bool
  | .nan => true
  | .int _ => false

/-- JavaScript truthiness of a request-body value: undefined, null, false,
falsy numbers and the empty string are falsy; every array is truthy. -/
def truthy : JSValue → Bool
  | .undefined => false
  | .null => false
  | .bool b => b
  | .num n => numTruthy n
  | .str s => s != ""
  | .arr _ => true

/-- The expression v || [] used by server.js for the tasks and
completedTasks body fields. -/
def orEmptyArr (v : JSValue) : JSValue :=
  if truthy v then v else .arr []

/-- parseInt applied to a string: an optional sign followed by a longest
leading digit run; NaN when no leading digit exists. -/
def parseIntJS (s : String) : JSNum :=
  match s.data with
  | '-' :: rest =>
      let ds := rest.takeWhile Char.isDigit
      if ds = [] then .nan else .int (-(digitsToNat ds : Int))
  | '+' :: rest =>
      let ds := rest.takeWhile Char.isDigit
      if ds = [] then .nan else .int (digitsToNat ds)
  | cs =>
      let ds := cs.takeWhile Char.isDigit
      if ds = [] then .nan else .int (digitsToNat ds)

/-- The expression parseInt(q) || d of the leaderboard handler: an absent
query parameter gives parseInt(undefined) = NaN hence d, and a parse result
of NaN or 0 is falsy hence also d. -/
def queryIntOr (q : Option String) (d : Int) : Int :=
  match q with
  | none => d
  | some s =>
      match parseIntJS s with
      | .nan => d
      | .int n => if n = 0 then d else n

/-! ## Persistence gateway: store, responses, authentication -/

/-- A stored user document in the users collection. -/
structure UserRecord where
  uid : String
  googleId : String
  xp : JSNum
  tasksCompleted : JSNum
  level : JSNum
  tasks : JSValue
  completedTasks : JSValue
  isOptIn : Bool
  createdAt : String
  updatedAt : String
deriving Repr, DecidableEq

/-- One access to the document store, logged so that theorems can state
that nothing touches the store before authentication. -/
inductive StoreAccess where
  | findByGoogleId (googleId : String)
  | findOne (uid : String)
  | updateOne (uid : String)
  | insertOne (googleId : String)
  | findQuery
deriving Repr, DecidableEq

/-- An HTTP response: status code, and the message of the JSON error body
when the response is an error. -/
structure Resp where
  status : Nat
  error : Option String
deriving Repr, DecidableEq

/-- Splitting a character list at every single space, keeping empty pieces,
as JavaScript split(' ') does. -/
def splitSpaces (cs : List Char) : List (List Char) :=
  match cs with
  | [] => [[]]
  | c :: rest =>
      let r := splitSpaces rest
      if c = ' ' then [] :: r
      else
        match r with
        | [] => [[c]]
        | a :: tl => (c :: a) :: tl

/-- The authHeader.startsWith check of authenticateToken. -/
def startsWithBearer (h : String) : Bool :=
  List.isPrefixOf "Bearer ".data h.data

/-- The token extraction authHeader.split(' ')[1] of server.js; a missing
element (undefined) and the empty string are both falsy and collapse to "". -/
def splitToken (h : String) : String :=
  ((splitSpaces h.data).getD 1 []).asString

/-- The authenticateToken middleware of server.js: a missing header, a
header not starting with "Bearer ", or an empty token after the split all
answer 401 with a JSON error body; otherwise the token is passed on. -/
def authenticateToken (authHeader : Option String) : Except Resp String :=
  match authHeader with
  | none => .error { status := 401, error := some "Authentication required" }
  | some h =>
      if !(startsWithBearer h) then
        .error { status := 401, error := some "Invalid token format" }
      else
        let token := splitToken h
        if token = "" then
          .error { status := 401, error := some "Authentication required" }
        else .ok token

/-- A well-formed bearer Authorization header: present, starting with
"Bearer ", and carrying a nonempty token. -/
def wellFormedBearer (h : Option String) : Bool :=
  match h with
  | none => false
  | some s => startsWithBearer s && splitToken s != ""

/-- findOne({_id}) on the users collection. -/
def findUser (db : List UserRecord) (uid : String) : Option UserRecord :=
  db.find? (fun u => u.uid == uid)

/-- Request body of PUT /api/users/:id, each field a raw JavaScript value
(undefined when the body omits it). -/
structure UpdateUserBody where
  xp : JSValue := .undefined
  tasksCompleted : JSValue := .undefined
  level : JSValue := .undefined
  tasks : JSValue := .undefined
  completedTasks : JSValue := .undefined
deriving Repr, DecidableEq

/-- The $set write of PUT /api/users/:id on the matching document: the
coerced numbers Number(x) || default, tasks || [], completedTasks || []
and updatedAt; any other document is untouched. -/
def applyUserUpdate (uid : String) (body : UpdateUserBody) (now : String)
    (u : UserRecord) : UserRecord :=
  if u.uid == uid then
    { u with xp := numOr (toNumber body.xp) 0,
             tasksCompleted := numOr (toNumber body.tasksCompleted) 0,
             level := numOr (toNumber body.level) 1,
             tasks := orEmptyArr body.tasks,
             completedTasks := orEmptyArr body.completedTasks,
             updatedAt := now }
  else u

/-- The body of the PUT /api/users/:id handler after authentication
(server.js lines 135-172): coerce xp, tasksCompleted and level with
Number(x) || default, answer 400 if any coerced value is NaN, otherwise
updateOne with the $set of applyUserUpdate, answering 404 when no document
matched. -/
def updateUserCore (db : List UserRecord) (uid : String)
    (body : UpdateUserBody) (now : String) :
    Resp × List UserRecord × List StoreAccess :=
  if jsIsNaN (numOr (toNumber body.xp) 0)
      || jsIsNaN (numOr (toNumber body.tasksCompleted) 0)
      || jsIsNaN (numOr (toNumber body.level) 1) then
    ({ status := 400, error := some "Invalid xp, tasksCompleted, or level value" },
     db, [])
  else
    if db.any (fun u => u.uid == uid) then
      ({ status := 200, error := none },
       db.map (applyUserUpdate uid body now), [.updateOne uid])
    else
      ({ status := 404, error := some "User not found" }, db, [.updateOne uid])

/-- PUT /api/users/:id with its authenticateToken middleware. -/
def updateUserEndpoint (authHeader : Option String) (db : List UserRecord)
    (uid : String) (body : UpdateUserBody) (now : String) :
    Resp × List UserRecord × List StoreAccess :=
  match authenticateToken authHeader with
  | .error r => (r, db, [])
  | .ok _ => updateUserCore db uid body now

/-- GET /api/users/:id with its authenticateToken middleware: findOne and
answer the user, or 404. -/
def getUserEndpoint (authHeader : Option String) (db : List UserRecord)
    (uid : String) : Resp × Option UserRecord × List StoreAccess :=
  match authenticateToken authHeader with
  | .error r => (r, none, [])
  | .ok _ =>
      match findUser db uid with
      | none => ({ status := 404, error := some "User not found" }, none,
                 [.findOne uid])
      | some u => ({ status := 200, error := none }, some u, [.findOne uid])

/-- PUT /api/users/:id/opt-in with its authenticateToken middleware: find
the user, answer 404 when absent, otherwise flip isOptIn with updateOne. -/
def toggleOptInEndpoint (authHeader : Option String) (db : List UserRecord)
    (uid : String) : Resp × List UserRecord × List StoreAccess :=
  match authenticateToken authHeader with
  | .error r => (r, db, [])
  | .ok _ =>
      match findUser db uid with
      | none => ({ status := 404, error := some "User not found" }, db,
                 [.findOne uid])
      | some u =>
          let db2 := db.map (fun x =>
            if x.uid == uid then { x with isOptIn := !u.isOptIn } else x)
          ({ status := 200, error := none }, db2, [.findOne uid, .updateOne uid])

/-- The leaderboard query of server.js: find({isOptIn: true}), sort by xp
descending, skip the offset, limit the page size. NaN sorts as 0 (it never
occurs in stored documents). -/
def numVal : JSNum → Int
  | .nan => 0
  | .int n => n

/-- The document-store pipeline behind GET /api/leaderboard. -/
def leaderboardQuery (db : List UserRecord) (limit offset : Int) :
    List UserRecord :=
  ((((db.filter (fun u => u.isOptIn)).mergeSort
      (fun a b => decide (numVal b.xp ≤ numVal a.xp))).drop offset.toNat).take
    limit.toNat)

/-- GET /api/leaderboard with its authenticateToken middleware: limit and
offset come from parseInt(query) || 10 and parseInt(query) || 0. -/
def getLeaderboardEndpoint (authHeader : Option String) (db : List UserRecord)
    (limitQ offsetQ : Option String) :
    Resp × List UserRecord × List StoreAccess :=
  match authenticateToken authHeader with
  | .error r => (r, [], [])
  | .ok _ =>
      ({ status := 200, error := none },
       leaderboardQuery db (queryIntOr limitQ 10) (queryIntOr offsetQ 0),
       [.findQuery])

/-- POST /api/users (server.js lines 73-131): no authenticateToken
middleware; the handler itself only checks authHeader?.split(' ')[1] and
googleId for truthiness (so any header with something after a space passes,
well-formed Bearer or not), then looks the user up by googleId, answering
the existing document or inserting a fresh one with xp || 0, level || 1,
tasksCompleted 0, empty task lists and isOptIn false. -/
def createUserEndpoint (authHeader : Option String) (googleId : Option String)
    (xp level : JSNum) (newId : String) (now : String)
    (db : List UserRecord) : Resp × List UserRecord × List StoreAccess :=
  let token := match authHeader with
    | none => ""
    | some h => splitToken h
  let gid := googleId.getD ""
  if token = "" || gid = "" then
    ({ status := 401, error := some "Authentication required" }, db, [])
  else
    match db.find? (fun u => u.googleId == gid) with
    | some _ => ({ status := 200, error := none }, db, [.findByGoogleId gid])
    | none =>
        let newUser : UserRecord :=
          { uid := newId, googleId := gid, xp := numOr xp 0,
            tasksCompleted := .int 0, level := numOr level 1,
            tasks := .arr [], completedTasks := .arr [], isOptIn := false,
            createdAt := now, updatedAt := now }
        ({ status := 200, error := none }, db ++ [newUser],
         [.findByGoogleId gid, .insertOne gid])

/-! ## Theorems -/

/-- Claim C1: for every one of the four operations (addTask, completeTask,
removeTask, updateTask), if a collection-updater collaborator throws
Error(m) during the operation, the error reporter is invoked with exactly
the message m (the reported-error log gains exactly that one entry), and
the operation raises no exception to its caller: each operation is a total
function into OpTrace, the throw having been absorbed by its catchReport
wrapper. Both updaters are covered for the operations that touch both
collections. -/
theorem errors_absorbed_and_reported (m : String) (ids : List String)
    (now : String) (inputs : List TaskInput)
    (calcXP : Int → Option String → Int × Int) (task : Task) (id : String)
    (p : TaskPatch) (bc : UpdaterBehavior) (t0 : OpTrace) :
    (addTask (.throws m) ids now inputs t0).reportedErrors
        = t0.reportedErrors ++ [m]
    ∧ (completeTask calcXP (.throws m) bc now task t0).reportedErrors
        = t0.reportedErrors ++ [m]
    ∧ (completeTask calcXP .succeeds (.throws m) now task t0).reportedErrors
        = t0.reportedErrors ++ [m]
    ∧ (removeTask (.throws m) bc id false t0).reportedErrors
        = t0.reportedErrors ++ [m]
    ∧ (removeTask bc (.throws m) id true t0).reportedErrors
        = t0.reportedErrors ++ [m]
    ∧ (updateTask (.throws m) id p t0).reportedErrors
        = t0.reportedErrors ++ [m] := by
  refine ⟨rfl, rfl, rfl, rfl, rfl, rfl⟩

/-- Claim C2: for every completed task in the completed collection,
removeTask(id, true) with that task's id invokes the XP Calculator with the
single raw delta -(experience + earlyBonus + overduePenalty), filters that
task out of the completed collection, and leaves the pending collection
alone, so removal reverses exactly the XP the task contributed. -/
theorem removeTask_completed_reverses_xp (id : String) (t0 : OpTrace)
    (c : CompletedTask)
    (hfind : t0.completedTasks.find? (fun x => x.id == id) = some c) :
    (removeTask .succeeds .succeeds id true t0).xpDeltaCalls
        = t0.xpDeltaCalls ++ [-(c.experience + c.earlyBonus + c.overduePenalty)]
    ∧ (removeTask .succeeds .succeeds id true t0).completedTasks
        = t0.completedTasks.filter (fun x => x.id != id)
    ∧ c ∉ (removeTask .succeeds .succeeds id true t0).completedTasks
    ∧ (removeTask .succeeds .succeeds id true t0).tasks = t0.tasks := by
  have hcid : c.id = id := by simpa using List.find?_some hfind
  refine ⟨?_, ?_, ?_, ?_⟩ <;>
    simp [removeTask, hfind, List.mem_filter, hcid]

/-- Witness for C2: the concrete completed task of the test suite with
experience 100, earlyBonus 10 and overduePenalty -5; its removal passes the
raw delta -105 to the XP Calculator and empties the completed collection. -/
theorem removeTask_completed_reverses_xp_witness :
    (removeTask .succeeds .succeeds "123" true
        { OpTrace.empty with completedTasks :=
            [{ id := "123", title := "T", experience := 100, deadline := none,
               label := none, createdAt := "c", completedAt := "d",
               earlyBonus := 10, overduePenalty := -5 }] }).xpDeltaCalls
      = [-105] := by
  have h := removeTask_completed_reverses_xp "123"
    { OpTrace.empty with completedTasks :=
        [{ id := "123", title := "T", experience := 100, deadline := none,
           label := none, createdAt := "c", completedAt := "d",
           earlyBonus := 10, overduePenalty := -5 }] }
    { id := "123", title := "T", experience := 100, deadline := none,
      label := none, createdAt := "c", completedAt := "d",
      earlyBonus := 10, overduePenalty := -5 } (by decide)
  simpa using h.1

/-- Claim C3: completeTask removes the entry with task.id from the pending
collection, appends exactly one entry to the completed collection consisting
of the original task fields plus a completedAt timestamp and the
earlyBonus/overduePenalty returned by the XP Calculator applied to
(task.experience, task.deadline), and triggers the celebratory effect
exactly once (the XP Calculator is also consulted exactly once, with those
two arguments). -/
theorem completeTask_moves_task (calcXP : Int → Option String → Int × Int)
    (now : String) (task : Task) (t0 : OpTrace) :
    (completeTask calcXP .succeeds .succeeds now task t0).tasks
        = t0.tasks.filter (fun x => x.id != task.id)
    ∧ (completeTask calcXP .succeeds .succeeds now task t0).completedTasks
        = t0.completedTasks ++ [buildCompleted task now
            (calcXP task.experience task.deadline).1
            (calcXP task.experience task.deadline).2]
    ∧ (completeTask calcXP .succeeds .succeeds now task t0).confettiCount
        = t0.confettiCount + 1
    ∧ (completeTask calcXP .succeeds .succeeds now task t0).xpBonusCalls
        = t0.xpBonusCalls ++ [(task.experience, task.deadline)]
    ∧ (∀ eb pen : Int, (buildCompleted task now eb pen).id = task.id
        ∧ (buildCompleted task now eb pen).title = task.title
        ∧ (buildCompleted task now eb pen).experience = task.experience
        ∧ (buildCompleted task now eb pen).deadline = task.deadline
        ∧ (buildCompleted task now eb pen).label = task.label
        ∧ (buildCompleted task now eb pen).createdAt = task.createdAt
        ∧ (buildCompleted task now eb pen).completedAt = now
        ∧ (buildCompleted task now eb pen).earlyBonus = eb
        ∧ (buildCompleted task now eb pen).overduePenalty = pen) := by
  exact ⟨rfl, rfl, rfl, rfl, fun eb pen =>
    ⟨rfl, rfl, rfl, rfl, rfl, rfl, rfl, rfl, rfl⟩⟩

/-- Pairing each built task with its payload: the titles and experiences of
the tasks built from a zip of ids and payloads are exactly those of the
payloads, in order. -/
theorem map_pair_zip_buildTask (now : String) :
    ∀ (ids : List String) (inputs : List TaskInput),
      ids.length = inputs.length →
      ((ids.zip inputs).map (buildTask now)).map
          (fun t => (t.title, t.experience))
        = inputs.map (fun q => (q.title, q.experience)) := by
  intro ids
  induction ids with
  | nil =>
      intro inputs h
      cases inputs with
      | nil => rfl
      | cons a tl => simp at h
  | cons i tl ih =>
      intro inputs h
      cases inputs with
      | nil => simp at h
      | cons a tl2 =>
          simp only [List.zip_cons_cons, List.map_cons, buildTask]
          rw [ih tl2 (by simpa using h)]

/-- Claim C4: for every ordered sequence of N task payloads, addTask
appends exactly N new entries to the pending collection whose relative
order matches the input order (their (title, experience) sequence equals
the payload sequence), and the pending-collection updater is invoked
exactly once for the whole call, with the pure transformation
addTaskTransform of the prior collection. -/
theorem addTask_batched_in_order (ids : List String) (now : String)
    (inputs : List TaskInput) (t0 : OpTrace)
    (hlen : ids.length = inputs.length) :
    (addTask .succeeds ids now inputs t0).tasks
        = t0.tasks ++ (ids.zip inputs).map (buildTask now)
    ∧ ((ids.zip inputs).map (buildTask now)).length = inputs.length
    ∧ ((ids.zip inputs).map (buildTask now)).map
          (fun t => (t.title, t.experience))
        = inputs.map (fun q => (q.title, q.experience))
    ∧ (addTask .succeeds ids now inputs t0).setTasksCalls
        = t0.setTasksCalls + 1
    ∧ (∀ prev, addTaskTransform ids now inputs prev
        = prev ++ (ids.zip inputs).map (buildTask now)) := by
  refine ⟨rfl, ?_, map_pair_zip_buildTask now ids inputs hlen, rfl,
    fun prev => rfl⟩
  simp [hlen]

/-- Witness for C4: two payloads yield two pending entries in input order
with a single updater invocation. -/
theorem addTask_batched_in_order_witness :
    (addTask .succeeds ["a", "b"] "t"
        [{ title := "Task 1", experience := 100 },
         { title := "Task 2", experience := 200 }] OpTrace.empty).tasks
      = [] ++ ((["a", "b"].zip
          [{ title := "Task 1", experience := 100 },
           { title := "Task 2", experience := 200 }]).map (buildTask "t"))
    ∧ ((["a", "b"].zip
          [({ title := "Task 1", experience := 100 } : TaskInput),
           { title := "Task 2", experience := 200 }]).map
            (buildTask "t")).map (fun t => (t.title, t.experience))
      = [("Task 1", 100), ("Task 2", 200)]
    ∧ (addTask .succeeds ["a", "b"] "t"
        [{ title := "Task 1", experience := 100 },
         { title := "Task 2", experience := 200 }]
        OpTrace.empty).setTasksCalls = 0 + 1 := by
  have h := addTask_batched_in_order ["a", "b"] "t"
    [{ title := "Task 1", experience := 100 },
     { title := "Task 2", experience := 200 }] OpTrace.empty (by decide)
  exact ⟨h.1, h.2.2.1, h.2.2.2.1⟩

/-- Claim C5: updateTask(id, patch) replaces the task with matching id by
the field-by-field merge of the patch into it (fields named by the patch
take the patch's value, unnamed fields keep the existing value, and the id
stays the existing task's id regardless of what the patch contains), while
every other task, and the whole collection when no task matches, is left
unchanged; the collection's length never changes, so nothing is created. -/
theorem updateTask_merges_fields (id : String) (p : TaskPatch) (t0 : OpTrace) :
    (updateTask .succeeds id p t0).tasks
        = t0.tasks.map (fun t => if t.id == id then mergeTask t p else t)
    ∧ (∀ t, (mergeTask t p).id = t.id)
    ∧ (∀ t, (mergeTask t p).title = p.title.getD t.title)
    ∧ (∀ t, (mergeTask t p).experience = p.experience.getD t.experience)
    ∧ (∀ t, (mergeTask t p).deadline = p.deadline.getD t.deadline)
    ∧ (∀ t, (mergeTask t p).label = p.label.getD t.label)
    ∧ (∀ t, (mergeTask t p).createdAt = p.createdAt.getD t.createdAt)
    ∧ ((∀ t ∈ t0.tasks, t.id ≠ id) →
        (updateTask .succeeds id p t0).tasks = t0.tasks)
    ∧ (updateTask .succeeds id p t0).tasks.length = t0.tasks.length := by
  refine ⟨rfl, fun t => rfl, fun t => rfl, fun t => rfl, fun t => rfl,
    fun t => rfl, fun t => rfl, ?_, ?_⟩
  · intro hmiss
    have hfix : ∀ a ∈ t0.tasks,
        (if a.id == id then mergeTask a p else a) = a := by
      intro a ha
      simp [hmiss a ha]
    show t0.tasks.map (fun t => if t.id == id then mergeTask t p else t)
        = t0.tasks
    rw [List.map_congr_left hfix]
    simp
  · show (t0.tasks.map (fun t => if t.id == id then mergeTask t p else t)).length
        = t0.tasks.length
    simp

/-- Witness for C5: patching the title of an existing task replaces only
that field, keeps the id, and a patch aimed at an id nobody has leaves the
collection untouched. -/
theorem updateTask_merges_fields_witness :
    (updateTask .succeeds "999" { title := some "Updated Task" }
        { OpTrace.empty with tasks :=
            [{ id := "123", title := "Old Task", experience := 100,
               deadline := none, label := none,
               createdAt := "2023-01-01" }] }).tasks
      = ({ OpTrace.empty with tasks :=
            [{ id := "123", title := "Old Task", experience := 100,
               deadline := none, label := none,
               createdAt := "2023-01-01" }] } : OpTrace).tasks
    ∧ (mergeTask
        { id := "123", title := "Old Task", experience := 100,
          deadline := none, label := none, createdAt := "2023-01-01" }
        { title := some "Updated Task" }).id = "123"
    ∧ (mergeTask
        { id := "123", title := "Old Task", experience := 100,
          deadline := none, label := none, createdAt := "2023-01-01" }
        { title := some "Updated Task" }).title = "Updated Task" := by
  have h := updateTask_merges_fields "999" { title := some "Updated Task" }
    { OpTrace.empty with tasks :=
        [{ id := "123", title := "Old Task", experience := 100,
           deadline := none, label := none, createdAt := "2023-01-01" }] }
  exact ⟨h.2.2.2.2.2.2.2.1 (by decide), h.2.1 _, h.2.2.1 _⟩

/-- Claim C6: addTask on a single valid payload appends one entry whose id
is the freshly generated one and distinct from every existing id, whose
title and experience are the payload's unchanged, whose createdAt is the
clock's timestamp and parses as a valid ISO timestamp, and whose label is
none (null) when the payload supplies no label. -/
theorem addTask_single_fresh (i now : String) (input : TaskInput)
    (t0 : OpTrace) (hfresh : ∀ t ∈ t0.tasks, t.id ≠ i)
    (hnow : isValidISO now = true) :
    (addTask .succeeds [i] now [input] t0).tasks
        = t0.tasks ++ [buildTask now (i, input)]
    ∧ (buildTask now (i, input)).id = i
    ∧ (buildTask now (i, input)).title = input.title
    ∧ (buildTask now (i, input)).experience = input.experience
    ∧ (∀ t ∈ t0.tasks, t.id ≠ (buildTask now (i, input)).id)
    ∧ isValidISO (buildTask now (i, input)).createdAt = true
    ∧ (input.label = none → (buildTask now (i, input)).label = none) := by
  exact ⟨rfl, rfl, rfl, rfl, hfresh, hnow, fun h => h⟩

/-- Witness for C6: a concrete payload without a label, added to a
collection already holding one task, gets a distinct id, an ISO createdAt
and a null label. -/
theorem addTask_single_fresh_witness :
    (addTask .succeeds ["id-1"] "2023-01-01T00:00:00.000Z"
        [{ title := "Test Task", experience := 100 }]
        { OpTrace.empty with tasks :=
            [{ id := "id-0", title := "Other", experience := 1,
               deadline := none, label := none, createdAt := "x" }] }).tasks
      = [{ id := "id-0", title := "Other", experience := 1, deadline := none,
           label := none, createdAt := "x" }]
        ++ [buildTask "2023-01-01T00:00:00.000Z"
              ("id-1", { title := "Test Task", experience := 100 })]
    ∧ (buildTask "2023-01-01T00:00:00.000Z"
          ("id-1", { title := "Test Task", experience := 100 })).id = "id-1"
    ∧ isValidISO (buildTask "2023-01-01T00:00:00.000Z"
          ("id-1", ({ title := "Test Task", experience := 100 } :
            TaskInput))).createdAt = true
    ∧ (buildTask "2023-01-01T00:00:00.000Z"
          ("id-1", ({ title := "Test Task", experience := 100 } :
            TaskInput))).label = none := by
  have h := addTask_single_fresh "id-1" "2023-01-01T00:00:00.000Z"
    { title := "Test Task", experience := 100 }
    { OpTrace.empty with tasks :=
        [{ id := "id-0", title := "Other", experience := 1, deadline := none,
           label := none, createdAt := "x" }] }
    (by decide) (by decide)
  exact ⟨h.1, h.2.1, h.2.2.2.2.2.1, h.2.2.2.2.2.2 rfl⟩

/-- On a header that is absent or not a well-formed bearer header, the
authenticateToken middleware answers 401 with a JSON error body. -/
theorem authenticateToken_fails (h : Option String)
    (hbad : wellFormedBearer h = false) :
    ∃ msg, authenticateToken h = .error { status := 401, error := some msg } := by
  cases h with
  | none => exact ⟨"Authentication required", rfl⟩
  | some s =>
      by_cases hb : startsWithBearer s = true
      · by_cases ht : splitToken s = ""
        · refine ⟨"Authentication required", ?_⟩
          simp [authenticateToken, hb, ht]
        · exfalso
          simp [wellFormedBearer, hb, ht] at hbad
      · refine ⟨"Invalid token format", ?_⟩
        simp [authenticateToken, hb]

/-- Claim C7: every gateway endpoint guarded by authenticateToken
(updateUser, getUser, toggleOptIn, getLeaderboard) answers an absent or
malformed bearer Authorization header with HTTP 401 and a JSON error body,
touching the document store not at all and leaving it unchanged; user
creation is exempt from the well-formed-bearer requirement: a header that
is not of the form Bearer token still lets it reach the store. -/
theorem gateway_requires_bearer (h : Option String) (db : List UserRecord)
    (uid : String) (body : UpdateUserBody) (now : String)
    (limitQ offsetQ : Option String) (xp level : JSNum) (newId : String)
    (hbad : wellFormedBearer h = false) :
    ((updateUserEndpoint h db uid body now).1.status = 401
      ∧ (updateUserEndpoint h db uid body now).1.error.isSome = true
      ∧ (updateUserEndpoint h db uid body now).2.2 = []
      ∧ (updateUserEndpoint h db uid body now).2.1 = db)
    ∧ ((getUserEndpoint h db uid).1.status = 401
      ∧ (getUserEndpoint h db uid).1.error.isSome = true
      ∧ (getUserEndpoint h db uid).2.2 = [])
    ∧ ((toggleOptInEndpoint h db uid).1.status = 401
      ∧ (toggleOptInEndpoint h db uid).1.error.isSome = true
      ∧ (toggleOptInEndpoint h db uid).2.2 = []
      ∧ (toggleOptInEndpoint h db uid).2.1 = db)
    ∧ ((getLeaderboardEndpoint h db limitQ offsetQ).1.status = 401
      ∧ (getLeaderboardEndpoint h db limitQ offsetQ).1.error.isSome = true
      ∧ (getLeaderboardEndpoint h db limitQ offsetQ).2.2 = [])
    ∧ (wellFormedBearer (some "Token abc") = false
      ∧ (createUserEndpoint (some "Token abc") (some "g1") xp level newId now
          db).2.2 ≠ []
      ∧ (createUserEndpoint (some "Token abc") (some "g1") xp level newId now
          db).1.status = 200) := by
  obtain ⟨msg, he⟩ := authenticateToken_fails h hbad
  have htok : splitToken "Token abc" = "abc" := by decide
  have hwf : wellFormedBearer (some "Token abc") = false := by decide
  have hc2 : (createUserEndpoint (some "Token abc") (some "g1") xp level newId
      now db).2.2 ≠ [] := by
    cases hfind : db.find? (fun u => u.googleId == "g1") <;>
      simp [createUserEndpoint, htok, hfind]
  have hc3 : (createUserEndpoint (some "Token abc") (some "g1") xp level newId
      now db).1.status = 200 := by
    cases hfind : db.find? (fun u => u.googleId == "g1") <;>
      simp [createUserEndpoint, htok, hfind]
  refine ⟨⟨?_, ?_, ?_, ?_⟩, ⟨?_, ?_, ?_⟩, ⟨?_, ?_, ?_, ?_⟩, ⟨?_, ?_, ?_⟩,
    hwf, hc2, hc3⟩ <;>
    simp [updateUserEndpoint, getUserEndpoint, toggleOptInEndpoint,
      getLeaderboardEndpoint, he]

/-- Witness for C7: a concrete malformed header (correct token shape but
the scheme word Token instead of Bearer) is rejected by all four guarded
endpoints without touching the store, while user creation accepts it. -/
theorem gateway_requires_bearer_witness :
    ((updateUserEndpoint (some "Token abc") [] "u1" {} "t").1.status = 401
      ∧ (updateUserEndpoint (some "Token abc") [] "u1" {} "t").1.error.isSome
          = true
      ∧ (updateUserEndpoint (some "Token abc") [] "u1" {} "t").2.2 = []
      ∧ (updateUserEndpoint (some "Token abc") [] "u1" {} "t").2.1 = [])
    ∧ ((getUserEndpoint (some "Token abc") [] "u1").1.status = 401
      ∧ (getUserEndpoint (some "Token abc") [] "u1").1.error.isSome = true
      ∧ (getUserEndpoint (some "Token abc") [] "u1").2.2 = [])
    ∧ ((toggleOptInEndpoint (some "Token abc") [] "u1").1.status = 401
      ∧ (toggleOptInEndpoint (some "Token abc") [] "u1").1.error.isSome = true
      ∧ (toggleOptInEndpoint (some "Token abc") [] "u1").2.2 = []
      ∧ (toggleOptInEndpoint (some "Token abc") [] "u1").2.1 = [])
    ∧ ((getLeaderboardEndpoint (some "Token abc") [] none none).1.status = 401
      ∧ (getLeaderboardEndpoint (some "Token abc") [] none none).1.error.isSome
          = true
      ∧ (getLeaderboardEndpoint (some "Token abc") [] none none).2.2 = [])
    ∧ (wellFormedBearer (some "Token abc") = false
      ∧ (createUserEndpoint (some "Token abc") (some "g1") (.int 0) (.int 1)
          "n1" "t" []).2.2 ≠ []
      ∧ (createUserEndpoint (some "Token abc") (some "g1") (.int 0) (.int 1)
          "n1" "t" []).1.status = 200) :=
  gateway_requires_bearer (some "Token abc") [] "u1" {} "t" none none
    (.int 0) (.int 1) "n1" (by decide)

/-- The Number(x) || d coercion can never produce NaN: NaN is falsy, so the
default takes over. -/
theorem jsIsNaN_numOr (n : JSNum) (d : Int) : jsIsNaN (numOr n d) = false := by
  cases n with
  | nan => rfl
  | int k => by_cases hk : k = 0 <;> simp [numOr, numTruthy, jsIsNaN, hk]

/-- Claim C8: PUT /api/users/:id coerces non-numeric xp, tasksCompleted and
level to 0, 0 and 1 respectively at the boundary (Number(x) || default),
and answers 400 exactly when any of the three coerced values is NaN; since
the coercion absorbs NaN into the default, that condition never holds and
the handler in fact never answers 400. -/
theorem updateUser_coercion (body : UpdateUserBody) (db : List UserRecord)
    (uid : String) (now : String) :
    (toNumber body.xp = .nan → numOr (toNumber body.xp) 0 = .int 0)
    ∧ (toNumber body.tasksCompleted = .nan →
        numOr (toNumber body.tasksCompleted) 0 = .int 0)
    ∧ (toNumber body.level = .nan → numOr (toNumber body.level) 1 = .int 1)
    ∧ ((updateUserCore db uid body now).1.status = 400 ↔
        (jsIsNaN (numOr (toNumber body.xp) 0)
          || jsIsNaN (numOr (toNumber body.tasksCompleted) 0)
          || jsIsNaN (numOr (toNumber body.level) 1)) = true)
    ∧ (updateUserCore db uid body now).1.status ≠ 400 := by
  have hcond : (jsIsNaN (numOr (toNumber body.xp) 0)
      || jsIsNaN (numOr (toNumber body.tasksCompleted) 0)
      || jsIsNaN (numOr (toNumber body.level) 1)) = false := by
    simp [jsIsNaN_numOr]
  have hstat : (updateUserCore db uid body now).1.status ≠ 400 := by
    unfold updateUserCore
    rw [hcond]
    cases hany : db.any (fun u => u.uid == uid) <;> simp [hany]
  refine ⟨?_, ?_, ?_, ?_, hstat⟩
  · intro hx
    rw [hx]
    rfl
  · intro hx
    rw [hx]
    rfl
  · intro hx
    rw [hx]
    rfl
  · rw [hcond]
    simp only [Bool.false_eq_true, iff_false]
    exact hstat

/-- Witness for C8: the string "abc", an omitted field (undefined) and the
string "x" all coerce to NaN under Number, are replaced by the defaults
0, 0 and 1, and the request is not rejected with 400. -/
theorem updateUser_coercion_witness :
    numOr (toNumber (.str "abc")) 0 = .int 0
    ∧ numOr (toNumber .undefined) 0 = .int 0
    ∧ numOr (toNumber (.str "x")) 1 = .int 1
    ∧ (updateUserCore [] "u1"
        { xp := .str "abc", tasksCompleted := .undefined, level := .str "x" }
        "t").1.status ≠ 400 := by
  have h := updateUser_coercion
    { xp := .str "abc", tasksCompleted := .undefined, level := .str "x" }
    [] "u1" "t"
  exact ⟨h.1 (by decide), h.2.1 (by decide), h.2.2.1 (by decide), h.2.2.2.2⟩

/-- Claim C9: GET /api/leaderboard returns only users whose opt-in flag is
true, sorted by xp in descending order, paginated through the document
store with limit and offset, and limit and offset default to 10 and 0 when
the query parameters are absent. -/
theorem leaderboard_sorted_opted_in (h : Option String) (tok : String)
    (db : List UserRecord) (limitQ offsetQ : Option String)
    (hok : authenticateToken h = .ok tok) :
    (∀ u ∈ (getLeaderboardEndpoint h db limitQ offsetQ).2.1,
        u.isOptIn = true)
    ∧ (getLeaderboardEndpoint h db limitQ offsetQ).2.1.Pairwise
        (fun a b => numVal b.xp ≤ numVal a.xp)
    ∧ queryIntOr none 10 = 10
    ∧ queryIntOr none 0 = 0
    ∧ (getLeaderboardEndpoint h db none none).2.1 = leaderboardQuery db 10 0
    ∧ (getLeaderboardEndpoint h db limitQ offsetQ).2.1
        = leaderboardQuery db (queryIntOr limitQ 10) (queryIntOr offsetQ 0)
    ∧ (getLeaderboardEndpoint h db limitQ offsetQ).1.status = 200 := by
  have hres : ∀ lq oq, (getLeaderboardEndpoint h db lq oq).2.1
      = leaderboardQuery db (queryIntOr lq 10) (queryIntOr oq 0) := by
    intro lq oq
    simp [getLeaderboardEndpoint, hok]
  have hsub : ∀ L O : Int, (leaderboardQuery db L O).Sublist
      ((db.filter (fun u => u.isOptIn)).mergeSort
        (fun a b => decide (numVal b.xp ≤ numVal a.xp))) := by
    intro L O
    exact (List.take_sublist _ _).trans (List.drop_sublist _ _)
  have hmem : ∀ (L O : Int), ∀ u ∈ leaderboardQuery db L O,
      u.isOptIn = true := by
    intro L O u hu
    have h2 := (hsub L O).subset hu
    have h3 := List.mem_mergeSort.mp h2
    exact (List.mem_filter.mp h3).2
  have hpair : ∀ L O : Int, (leaderboardQuery db L O).Pairwise
      (fun a b => numVal b.xp ≤ numVal a.xp) := by
    intro L O
    have hs := @List.sorted_mergeSort UserRecord
      (fun a b => decide (numVal b.xp ≤ numVal a.xp))
      (fun a b c hab hbc => by
        simp only [decide_eq_true_eq] at *
        exact le_trans hbc hab)
      (fun a b => by
        simp only [Bool.or_eq_true, decide_eq_true_eq]
        exact le_total (numVal b.xp) (numVal a.xp))
      (db.filter (fun u => u.isOptIn))
    have hp := List.Pairwise.sublist (hsub L O) hs
    exact hp.imp (fun hab => by simpa using hab)
  refine ⟨?_, ?_, rfl, rfl, ?_, hres limitQ offsetQ, ?_⟩
  · rw [hres limitQ offsetQ]
    exact hmem _ _
  · rw [hres limitQ offsetQ]
    exact hpair _ _
  · exact hres none none
  · simp [getLeaderboardEndpoint, hok]

/-- Witness for C9: a live bearer header and a three-user store, one user
opted out; the leaderboard keeps only opted-in users, in descending xp
order, with the default page. -/
theorem leaderboard_sorted_opted_in_witness :
    (∀ u ∈ (getLeaderboardEndpoint (some "Bearer t")
        [{ uid := "u1", googleId := "g1", xp := .int 5, tasksCompleted := .int 0,
           level := .int 1, tasks := .arr [], completedTasks := .arr [],
           isOptIn := true, createdAt := "c", updatedAt := "c" },
         { uid := "u2", googleId := "g2", xp := .int 9, tasksCompleted := .int 0,
           level := .int 1, tasks := .arr [], completedTasks := .arr [],
           isOptIn := false, createdAt := "c", updatedAt := "c" },
         { uid := "u3", googleId := "g3", xp := .int 7, tasksCompleted := .int 0,
           level := .int 1, tasks := .arr [], completedTasks := .arr [],
           isOptIn := true, createdAt := "c", updatedAt := "c" }]
        none none).2.1, u.isOptIn = true)
    ∧ (getLeaderboardEndpoint (some "Bearer t")
        [{ uid := "u1", googleId := "g1", xp := .int 5, tasksCompleted := .int 0,
           level := .int 1, tasks := .arr [], completedTasks := .arr [],
           isOptIn := true, createdAt := "c", updatedAt := "c" },
         { uid := "u2", googleId := "g2", xp := .int 9, tasksCompleted := .int 0,
           level := .int 1, tasks := .arr [], completedTasks := .arr [],
           isOptIn := false, createdAt := "c", updatedAt := "c" },
         { uid := "u3", googleId := "g3", xp := .int 7, tasksCompleted := .int 0,
           level := .int 1, tasks := .arr [], completedTasks := .arr [],
           isOptIn := true, createdAt := "c", updatedAt := "c" }]
        none none).2.1.Pairwise (fun a b => numVal b.xp ≤ numVal a.xp) := by
  have h := leaderboard_sorted_opted_in (some "Bearer t") "t"
    [{ uid := "u1", googleId := "g1", xp := .int 5, tasksCompleted := .int 0,
       level := .int 1, tasks := .arr [], completedTasks := .arr [],
       isOptIn := true, createdAt := "c", updatedAt := "c" },
     { uid := "u2", googleId := "g2", xp := .int 9, tasksCompleted := .int 0,
       level := .int 1, tasks := .arr [], completedTasks := .arr [],
       isOptIn := false, createdAt := "c", updatedAt := "c" },
     { uid := "u3", googleId := "g3", xp := .int 7, tasksCompleted := .int 0,
       level := .int 1, tasks := .arr [], completedTasks := .arr [],
       isOptIn := true, createdAt := "c", updatedAt := "c" }]
    none none rfl
  exact ⟨h.1, h.2.1⟩

/-- Searching the users collection after a uid-preserving rewrite of every
document finds the rewritten image of what it found before. -/
theorem findUser_map (db : List UserRecord) (uid : String)
    (g : UserRecord → UserRecord) (hg : ∀ u, (g u).uid = u.uid) :
    findUser (db.map g) uid = (findUser db uid).map g := by
  induction db with
  | nil => rfl
  | cons a tl ih =>
      by_cases ha : a.uid = uid
      · have hga : ((g a).uid == uid) = true := by simp [hg, ha]
        have haa : (a.uid == uid) = true := by simp [ha]
        simp [findUser, List.find?_cons, hga, haa]
      · have hga : ((g a).uid == uid) = false := by simp [hg, ha]
        have haa : (a.uid == uid) = false := by simp [ha]
        simp only [findUser, List.map_cons, List.find?_cons, hga, haa]
        exact ih

/-- Claim C10: a PUT /api/users/:id request whose body omits (or passes any
falsy value for) tasks or completedTasks overwrites the stored user's
corresponding array field with the empty array rather than leaving it
unchanged, whatever the stored lists held: a partial update erases the
stored task lists. -/
theorem updateUser_erases_task_lists (db : List UserRecord) (uid : String)
    (body : UpdateUserBody) (now : String) (u : UserRecord)
    (hu : findUser db uid = some u) :
    (truthy body.tasks = false →
      ((findUser (updateUserCore db uid body now).2.1 uid).map
          (fun x => x.tasks)) = some (.arr []))
    ∧ (truthy body.completedTasks = false →
      ((findUser (updateUserCore db uid body now).2.1 uid).map
          (fun x => x.completedTasks)) = some (.arr []))
    ∧ (updateUserCore db uid body now).1.status = 200 := by
  have hcond : (jsIsNaN (numOr (toNumber body.xp) 0)
      || jsIsNaN (numOr (toNumber body.tasksCompleted) 0)
      || jsIsNaN (numOr (toNumber body.level) 1)) = false := by
    simp [jsIsNaN_numOr]
  have hu' : db.find? (fun x => x.uid == uid) = some u := hu
  have huuid : (u.uid == uid) = true :=
    @List.find?_some UserRecord (fun x => x.uid == uid) u db hu'
  have hany : db.any (fun x => x.uid == uid) = true :=
    List.any_eq_true.mpr ⟨u, List.mem_of_find?_eq_some hu', huuid⟩
  have hg : ∀ x : UserRecord, (applyUserUpdate uid body now x).uid = x.uid := by
    intro x
    unfold applyUserUpdate
    by_cases hx : (x.uid == uid) = true <;> simp [hx]
  have hdb2 : (updateUserCore db uid body now).2.1
      = db.map (applyUserUpdate uid body now) := by
    unfold updateUserCore
    rw [hcond, hany]
    rfl
  have hfound : findUser (updateUserCore db uid body now).2.1 uid
      = some (applyUserUpdate uid body now u) := by
    rw [hdb2, findUser_map db uid _ hg, hu]
    rfl
  have happ : applyUserUpdate uid body now u
      = { u with
            xp := numOr (toNumber body.xp) 0,
            tasksCompleted := numOr (toNumber body.tasksCompleted) 0,
            level := numOr (toNumber body.level) 1,
            tasks := orEmptyArr body.tasks,
            completedTasks := orEmptyArr body.completedTasks,
            updatedAt := now } := by
    unfold applyUserUpdate
    rw [huuid]
    rfl
  refine ⟨?_, ?_, ?_⟩
  · intro htasks
    have hT : orEmptyArr body.tasks = .arr [] := by
      unfold orEmptyArr
      rw [htasks]
      rfl
    rw [hfound, happ]
    simp [hT]
  · intro hct
    have hC : orEmptyArr body.completedTasks = .arr [] := by
      unfold orEmptyArr
      rw [hct]
      rfl
    rw [hfound, happ]
    simp [hC]
  · unfold updateUserCore
    rw [hcond, hany]
    rfl

/-- Witness for C10: a stored user with one element in each list, updated
through two mixed partial bodies. A body supplying only completedTasks
(tasks omitted, hence undefined) erases the stored tasks list, and a body
supplying only tasks erases the stored completedTasks list. -/
theorem updateUser_erases_task_lists_witness :
    ((findUser (updateUserCore
        [{ uid := "u1", googleId := "g1", xp := .int 5, tasksCompleted := .int 2,
           level := .int 1, tasks := .arr ["a"], completedTasks := .arr ["b"],
           isOptIn := false, createdAt := "c", updatedAt := "c" }]
        "u1" { completedTasks := .arr ["b"] } "t").2.1 "u1").map
        (fun x => x.tasks)) = some (.arr [])
    ∧ ((findUser (updateUserCore
        [{ uid := "u1", googleId := "g1", xp := .int 5, tasksCompleted := .int 2,
           level := .int 1, tasks := .arr ["a"], completedTasks := .arr ["b"],
           isOptIn := false, createdAt := "c", updatedAt := "c" }]
        "u1" { tasks := .arr ["a"] } "t").2.1 "u1").map
        (fun x => x.completedTasks)) = some (.arr []) := by
  have h1 := updateUser_erases_task_lists
    [{ uid := "u1", googleId := "g1", xp := .int 5, tasksCompleted := .int 2,
       level := .int 1, tasks := .arr ["a"], completedTasks := .arr ["b"],
       isOptIn := false, createdAt := "c", updatedAt := "c" }]
    "u1" { completedTasks := .arr ["b"] } "t"
    { uid := "u1", googleId := "g1", xp := .int 5, tasksCompleted := .int 2,
      level := .int 1, tasks := .arr ["a"], completedTasks := .arr ["b"],
      isOptIn := false, createdAt := "c", updatedAt := "c" }
    (by decide)
  have h2 := updateUser_erases_task_lists
    [{ uid := "u1", googleId := "g1", xp := .int 5, tasksCompleted := .int 2,
       level := .int 1, tasks := .arr ["a"], completedTasks := .arr ["b"],
       isOptIn := false, createdAt := "c", updatedAt := "c" }]
    "u1" { tasks := .arr ["a"] } "t"
    { uid := "u1", googleId := "g1", xp := .int 5, tasksCompleted := .int 2,
      level := .int 1, tasks := .arr ["a"], completedTasks := .arr ["b"],
      isOptIn := false, createdAt := "c", updatedAt := "c" }
    (by decide)
  exact ⟨h1.1 (by decide), h2.2.1 (by decide)⟩

end QuestLog
